import Mathlib

/-!
# Verification of the remo-app backend

A shallow embedding of the remo-app backend (`main.py`, `tools.py`,
`agents.py`) together with proofs about its task store, reminder
scheduler, browser tool, recording tool and bounded agentic loop.

Conventions:
- SQLite rows become Lean structures; the `tasks` table becomes a list of
  rows, the `push_tokens` table a list of `(user_id, token)` pairs.
- SQLite TEXT comparison (binary collation, used by `due_time <= ?`) is
  embedded as code-point-wise lexicographic comparison `textLe`.
- External effects (the system clock, Python's string hash, the Playwright
  browser, the FCM push provider, the rrweb asset) are passed in as
  explicit environment parameters.
-/

namespace Remo

/-- SQLite TEXT `<=` on character lists (binary collation). -/
def charListLe : List Char → List Char → Bool
  | [], _ => true
  | _ :: _, [] => false
  | c :: cs, d :: ds =>
    if c < d then true
    else if d < c then false
    else charListLe cs ds

/-- SQLite TEXT `<=` on strings, as used by `due_time <= ?` in `check_reminders`. -/
def textLe (a b : String) : Bool :=
  charListLe a.data b.data

theorem charListLe_refl (l : List Char) : charListLe l l = true := by
  induction l with
  | nil => rfl
  | cons c cs ih => simp [charListLe, ih]

theorem textLe_refl (s : String) : textLe s s = true :=
  charListLe_refl s.data

/-- One row of the `tasks` table (`main.py`, `init_db`): 17 columns. -/
structure TaskRow where
  id : String
  user_id : String
  title : String
  notes : Option String
  url : Option String
  due_time : Option String
  repeat_rule : Option String
  priority : Option String
  is_flagged : Bool
  tags_csv : Option String
  early_reminder_offset_mins : Option Int
  status : String
  is_training_required : Bool
  action_plan_json : Option String
  training_transcript : Option String
  creation_date : String
  last_run_log : Option String
deriving DecidableEq, Repr

/-- The `tasks` table. -/
abbrev TaskStore := List TaskRow

/-- The `push_tokens` table: `user_id` (primary key) to `token`. -/
abbrev PushTokens := List (String × String)

/-- The request body of `POST /tasks` (`CreateTaskRequest` in `main.py`). -/
structure CreateTaskRequest where
  user_id : String
  title : String
  notes : Option String := none
  url : Option String := none
  due_time : Option String := none
  repeat_rule : Option String := none
  priority : Option String := none
  is_flagged : Bool := false
  tags_csv : Option String := none
  early_reminder_offset_mins : Option Int := none
  is_training_required : Bool := false
deriving DecidableEq, Repr

/-- `create_task` (`main.py` lines 164-180).  The environment supplies
Python's string hash `pyHash` (deterministic within one process run),
`nowLocal` = `str(datetime.now())` and `nowUtcIso` =
`datetime.now(timezone.utc).isoformat()`, both renderings of the current
clock reading.  The new id is
`"task_" + str(hash(request.title + str(datetime.now())))[:8]`. -/
def create_task (pyHash : String → Int) (nowLocal nowUtcIso : String)
    (req : CreateTaskRequest) : TaskRow :=
  let new_task_id := "task_" ++ (toString (pyHash (req.title ++ nowLocal))).take 8
  { id := new_task_id
    user_id := req.user_id
    title := req.title
    notes := req.notes
    url := req.url
    due_time := req.due_time
    repeat_rule := req.repeat_rule
    priority := req.priority
    is_flagged := req.is_flagged
    tags_csv := req.tags_csv
    early_reminder_offset_mins := req.early_reminder_offset_mins
    status := "pending"
    is_training_required := req.is_training_required
    action_plan_json := none
    training_transcript := none
    creation_date := nowUtcIso
    last_run_log := none }

/-- The `INSERT INTO tasks` performed by `create_task`: appends the new row. -/
def create_task_insert (pyHash : String → Int) (nowLocal nowUtcIso : String)
    (req : CreateTaskRequest) (store : TaskStore) : TaskStore :=
  store ++ [create_task pyHash nowLocal nowUtcIso req]

/-- The `UPDATE tasks SET action_plan_json = ?, training_transcript = ?,
status = 'trained' WHERE id = ?` row transformer of `complete_task_training`. -/
def trainRow (action_plan_str transcript : String) (t : TaskRow) : TaskRow :=
  { t with
    action_plan_json := some action_plan_str
    training_transcript := some transcript
    status := "trained" }

/-- `complete_task_training` (`main.py` lines 193-209).  `action_plan_str`
is the `json.dumps(action_plan)` serialization computed by the handler.
The `UPDATE ... WHERE id = ?` touches every row with the given id; if its
rowcount is 0 the handler closes the connection without committing (so
the store is unchanged) and raises HTTP 404, else it commits and returns
success.  The result pairs the HTTP outcome with the resulting store. -/
def complete_task_training (store : TaskStore) (task_id action_plan_str transcript : String) :
    Except Nat Unit × TaskStore :=
  let updated := store.map fun t =>
    if t.id = task_id then trainRow action_plan_str transcript t else t
  if store.any (fun t => t.id == task_id) then (Except.ok (), updated)
  else (Except.error 404, store)

/-- The due-task predicate of the scheduler query
`SELECT ... WHERE due_time <= ? AND status = 'pending'`
(`main.py` line 269).  A SQL `NULL` `due_time` compares to nothing, so
tasks without a due time never match. -/
def isDuePending (now : String) (t : TaskRow) : Bool :=
  (match t.due_time with
   | some d => textLe d now
   | none => false)
  && (t.status == "pending")

/-- The set of due reminders selected at the start of a scheduler tick. -/
def find_due (store : TaskStore) (now : String) : TaskStore :=
  store.filter (isDuePending now)

/-- `SELECT token FROM push_tokens WHERE user_id = ?` (`main.py` line 278). -/
def lookup_token (tokens : PushTokens) (uid : String) : Option String :=
  (tokens.find? (fun p => p.1 == uid)).map (fun p => p.2)

/-- A row after `UPDATE tasks SET status = 'notified' WHERE id = ?`. -/
def notifiedRow (r : TaskRow) : TaskRow :=
  { r with status := "notified" }

/-- `UPDATE tasks SET status = 'notified' WHERE id = ?` (`main.py` line 289). -/
def notifyRow (tid : String) (st : TaskStore) : TaskStore :=
  st.map fun r => if r.id = tid then notifiedRow r else r

/-- The observable outcome of one scheduler tick: the resulting `tasks`
table and the ids of the tasks for which `messaging.send` was invoked,
in order. -/
structure TickResult where
  store : TaskStore
  provider_calls : List String
deriving DecidableEq, Repr

/-- The body of the `for task_id, user_id, title in due_reminders` loop of
`check_reminders` (`main.py` lines 277-293): look up the owner's push
token; if absent, do nothing; if present, invoke the provider (`sendOk`
gives the delivery outcome for a token/title pair) and on success mark
the task notified, on failure only log. -/
def tick_step (sendOk : String → String → Bool) (tokens : PushTokens)
    (acc : TickResult) (t : TaskRow) : TickResult :=
  match lookup_token tokens t.user_id with
  | none => acc
  | some tok =>
    if sendOk tok t.title then
      { store := notifyRow t.id acc.store
        provider_calls := acc.provider_calls ++ [t.id] }
    else
      { acc with provider_calls := acc.provider_calls ++ [t.id] }

/-- One tick of the reminder scheduler `check_reminders`
(`main.py` lines 262-295): the due list is computed once against the
incoming store, then each due task is processed in order. -/
def check_reminders (sendOk : String → String → Bool) (tokens : PushTokens)
    (store : TaskStore) (now : String) : TickResult :=
  (find_due store now).foldl (tick_step sendOk tokens)
    { store := store, provider_calls := [] }

/-! ## Browser Action Tool (`tools.py`, `use_browser_and_get_content`) -/

/-- What the Playwright environment does for a given URL inside the `try`
block of `use_browser_and_get_content`: either every step succeeds and
`page.content()` yields the page HTML, or some step raises an exception
`e` whose `str(e)` is the given message. -/
inductive PageFetchOutcome where
  | content (html : String)
  | raised (message : String)
deriving DecidableEq, Repr

/-- The dict returned by `use_browser_and_get_content`:
`{"status": "success", "html_content": ...}` or
`{"status": "error", "message": ...}`. -/
inductive ToolResult where
  | success (html_content : String)
  | error (message : String)
deriving DecidableEq, Repr

/-- The `try` block of `use_browser_and_get_content` (`tools.py` lines
31-44): launch, navigate, read content, close.  `Except.error m` is an
exception escaping the block with `str(e) = m`. -/
def browser_body (env : String → PageFetchOutcome) (url : String) : Except String String :=
  match env url with
  | PageFetchOutcome.content html => Except.ok html
  | PageFetchOutcome.raised msg => Except.error msg

/-- `use_browser_and_get_content` (`tools.py` lines 24-47): the
`except Exception as e` clause converts any exception of the body into
`{"status": "error", "message": str(e)}`; a successful body becomes
`{"status": "success", "html_content": ...}`.  The return type has no
exception variant: nothing propagates to the caller. -/
def use_browser_and_get_content (env : String → PageFetchOutcome) (url : String) : ToolResult :=
  match browser_body env url with
  | Except.ok html => ToolResult.success html
  | Except.error msg => ToolResult.error msg

/-! ## Recording Tool (`tools.py`, `start_interactive_session`) -/

/-- The observable behaviour of one recording session: the text frames
sent over the WebSocket sink, in order, and whether a browser was
launched. -/
structure RecordSessionResult where
  sink_messages : List String
  browser_opened : Bool
deriving DecidableEq, Repr

/-- `json.dumps(\x7b"error": "rrweb.js not found on server"\x7d)` as sent by
`start_interactive_session` when the script asset is missing. -/
def rrwebMissingError : String :=
  "\x7b\"error\": \"rrweb.js not found on server\"\x7d"

/-- `start_interactive_session` (`tools.py` lines 51-87).  `rrwebScript`
is the content of `rrweb.js` if the file exists (`none` models
`FileNotFoundError`); `pageEvents` are the `json.dumps(event)` frames the
injected recorder emits until the page closes.  If the script is missing
the function sends the single error frame and returns before
`async_playwright` ever launches a browser; otherwise it opens a browser
and forwards every emitted event to the sink. -/
def start_interactive_session (rrwebScript : Option String) (pageEvents : List String)
    (url : String) : RecordSessionResult :=
  match rrwebScript with
  | none =>
    { sink_messages := [rrwebMissingError]
      browser_opened := false }
  | some _ =>
    { sink_messages := pageEvents
      browser_opened := true }

/-- The hard-coded start URL of `websocket_record_session`
(`main.py` line 253). -/
def record_start_url : String := "https://google.github.io/adk-docs/"

/-- `websocket_record_session` (`main.py` lines 247-259): accepts the
socket and starts an interactive recording session at the hard-coded
`start_url`; the `task_id` and `user_id` path parameters are only
printed, never used to choose the URL. -/
def websocket_record_session (rrwebScript : Option String) (pageEvents : List String)
    (task_id user_id : String) : RecordSessionResult :=
  let start_url := record_start_url
  start_interactive_session rrwebScript pageEvents start_url

/-! ## Bounded Agentic Loop (`agents.py`, `thinker_agent`)

Modelled from the spec: the iteration, escalation and tool-dispatch
semantics of `google.adk.agents.LoopAgent` are owned by the vendored
framework and are not in this repository; spec section 4.5 gives their
contract (state = goal and last observation; each iteration calls the
Planner Step; `Finish` ends the loop; `Fetch(url)` replaces the
observation with the Browser Action Tool's result; a hard cap of
`max_iterations` ends the loop reporting the last state, not an error).
The cap value 5 is from `agents.py` line 52. -/

/-- The Planner Step's decision (spec section 4.4):
`use_browser_and_get_content(url)` or `finish_task(reason)`. -/
inductive AgentAction where
  | fetch (url : String)
  | finish (reason : String)
deriving DecidableEq, Repr

/-- How one loop invocation ends: a `Finish` action with its reason, or
the iteration cap, both carrying the last observation.  There is no
error variant: reaching the cap is normal termination. -/
inductive LoopOutcome where
  | finished (reason : String) (last_obs : String)
  | capReached (last_obs : String)
deriving DecidableEq, Repr

/-- `max_iterations=5` from `agents.py` line 52. -/
def max_iterations : Nat := 5

/-- Modelled from the spec: the counted loop of the `LoopAgent`
(spec section 4.5).  `planner i obs` is the Planner Step's decision at
iteration index `i` given observation `obs` (the index lets the planner
decide differently across iterations); `browser url` is the Browser
Action Tool's observation for `url`.  `runLoop planner browser n calls obs`
runs up to `n` more iterations having already made `calls` planner
calls, and returns the outcome together with the total number of
planner calls. -/
def runLoop (planner : Nat → String → AgentAction) (browser : String → String) :
    Nat → Nat → String → LoopOutcome × Nat
  | 0, calls, obs => (LoopOutcome.capReached obs, calls)
  | n + 1, calls, obs =>
    match planner calls obs with
    | AgentAction.finish reason => (LoopOutcome.finished reason obs, calls + 1)
    | AgentAction.fetch url => runLoop planner browser n (calls + 1) (browser url)

/-- Modelled from the spec: one whole invocation of the bounded agentic
loop `thinker_agent` for a goal.  The planner is given the goal and the
current observation; the initial observation is `""`
(`main.py` line 239, `page_observation: ""`). -/
def thinker_agent (planner : String → Nat → String → AgentAction)
    (browser : String → String) (goal : String) : LoopOutcome × Nat :=
  runLoop (planner goal) browser max_iterations 0 ""

/-- The observation after one loop iteration at index `i`: unchanged on
`Finish`, the browser's result on `Fetch`. -/
def stepObs (planner : Nat → String → AgentAction) (browser : String → String)
    (i : Nat) (obs : String) : String :=
  match planner i obs with
  | AgentAction.finish _ => obs
  | AgentAction.fetch url => browser url

/-- The observation after `n` further iterations starting at call index
`calls` with observation `obs`. -/
def loopObs (planner : Nat → String → AgentAction) (browser : String → String) :
    Nat → Nat → String → String
  | 0, _, obs => obs
  | n + 1, calls, obs =>
    loopObs planner browser n (calls + 1) (stepObs planner browser calls obs)

/-- The last observation of a full five-iteration run of the loop. -/
def loopLastObs (planner : String → Nat → String → AgentAction)
    (browser : String → String) (goal : String) : String :=
  loopObs (planner goal) browser max_iterations 0 ""

/-! ## Concrete fixtures used by witnesses and counterexamples -/

/-- A concrete pending task with a due time, as created by `POST /tasks`. -/
def cexTask0 : TaskRow :=
  { id := "task_1"
    user_id := "u"
    title := "Pay rent"
    notes := none
    url := none
    due_time := some "2025-01-01T00:00:00+00:00"
    repeat_rule := none
    priority := none
    is_flagged := false
    tags_csv := none
    early_reminder_offset_mins := none
    status := "pending"
    is_training_required := false
    action_plan_json := none
    training_transcript := none
    creation_date := "2024-12-01T00:00:00+00:00"
    last_run_log := none }

/-- A concrete deterministic stand-in for Python's string hash (any
deterministic function works: the id collision below only uses that equal
inputs hash equally, which holds for every such function). -/
def pyHash0 : String → Int := fun s => (s.length : Int) * 123456789

/-- A creation request from user `alice`. -/
def reqAlice : CreateTaskRequest := { user_id := "alice", title := "Buy milk" }

/-- A creation request from user `bob` with the same title. -/
def reqBob : CreateTaskRequest := { user_id := "bob", title := "Buy milk" }

/-! ## Theorems -/

/-- C3 (amended): for every valid creation request, `create_task` returns
a task whose id is non-empty, whose status is `"pending"`, and whose
`creation_date` is the current UTC timestamp (hence `<=` now under the
store's TEXT ordering).  Distinctness of the id from previously created
ids is not guaranteed (see the counterexample). -/
theorem create_task_basic (pyHash : String → Int) (nowLocal nowUtcIso : String)
    (req : CreateTaskRequest) :
    (create_task pyHash nowLocal nowUtcIso req).id ≠ "" ∧
    (create_task pyHash nowLocal nowUtcIso req).status = "pending" ∧
    (create_task pyHash nowLocal nowUtcIso req).creation_date = nowUtcIso ∧
    textLe (create_task pyHash nowLocal nowUtcIso req).creation_date nowUtcIso = true := by
  refine ⟨?_, rfl, rfl, textLe_refl _⟩
  intro h
  have hlen := congrArg String.length h
  simp only [create_task, String.length_append] at hlen
  simp at hlen
  exact absurd hlen.1 (by decide)

/-- C3 counterexample: the generated id depends only on the title and the
clock reading (`"task_" + str(hash(title + str(datetime.now())))[:8]`),
so two different creation requests with the same title issued at the same
clock reading receive the same id — the new id is not distinct from the
previously created one. -/
theorem create_task_id_collision :
    reqAlice ≠ reqBob ∧
    (create_task pyHash0 "2025-06-01 10:00:00.000000" "2025-06-01T10:00:00+00:00" reqAlice).id =
      (create_task pyHash0 "2025-06-01 10:00:00.000000" "2025-06-01T10:00:00+00:00" reqBob).id := by
  exact ⟨by decide, rfl⟩

/-- C4: `complete_task_training` on an id that matches no stored task
returns HTTP 404 and leaves the store unchanged (the zero-row `UPDATE`
is never committed). -/
theorem complete_training_unknown_id (store : TaskStore) (tid plan tr : String)
    (h : ∀ t ∈ store, t.id ≠ tid) :
    complete_task_training store tid plan tr = (Except.error 404, store) := by
  have hany : store.any (fun t => t.id == tid) = false := by
    simp only [List.any_eq_false]
    intro t ht
    simpa using h t ht
  simp [complete_task_training, hany]

/-- C4 witness: on a singleton store whose task id is `"task_1"`, asking
to complete training for `"task_404"` yields 404 and the same store. -/
theorem complete_training_unknown_id_witness :
    complete_task_training [cexTask0] "task_404" "[]" "done" =
      (Except.error 404, [cexTask0]) :=
  complete_training_unknown_id [cexTask0] "task_404" "[]" "done" (by decide)

/-- The row-wise frame condition of a successful `complete_task_training`:
rows with a different id are untouched; the matching row keeps every
column except `action_plan_json`, `training_transcript` and `status`,
which are set to the new plan, the new transcript and `"trained"`. -/
def trainFrameOk (plan tr tid : String) (r rNew : TaskRow) : Prop :=
  (r.id ≠ tid → rNew = r) ∧
  (r.id = tid →
    rNew.id = r.id ∧ rNew.user_id = r.user_id ∧ rNew.title = r.title ∧
    rNew.notes = r.notes ∧ rNew.url = r.url ∧ rNew.due_time = r.due_time ∧
    rNew.repeat_rule = r.repeat_rule ∧ rNew.priority = r.priority ∧
    rNew.is_flagged = r.is_flagged ∧ rNew.tags_csv = r.tags_csv ∧
    rNew.early_reminder_offset_mins = r.early_reminder_offset_mins ∧
    rNew.is_training_required = r.is_training_required ∧
    rNew.creation_date = r.creation_date ∧ rNew.last_run_log = r.last_run_log ∧
    rNew.status = "trained" ∧ rNew.action_plan_json = some plan ∧
    rNew.training_transcript = some tr)

/-- C9: a successful `complete_task_training` on a known id succeeds and
changes, row by row, nothing except the action plan, the transcript and
the status of the rows carrying that id; every other row and every other
column is unchanged. -/
theorem complete_training_frame (store : TaskStore) (tid plan tr : String)
    (h : ∃ t ∈ store, t.id = tid) :
    (complete_task_training store tid plan tr).1 = Except.ok () ∧
    List.Forall₂ (trainFrameOk plan tr tid) store (complete_task_training store tid plan tr).2 := by
  have hany : store.any (fun t => t.id == tid) = true := by
    obtain ⟨t, ht, hid⟩ := h
    exact List.any_eq_true.mpr ⟨t, ht, by simpa using hid⟩
  refine ⟨by simp [complete_task_training, hany], ?_⟩
  have h2 : (complete_task_training store tid plan tr).2 =
      store.map (fun t => if t.id = tid then trainRow plan tr t else t) := by
    simp [complete_task_training, hany]
  rw [h2]
  apply List.forall₂_map_right_iff.mpr
  apply List.forall₂_same.mpr
  intro r _
  by_cases hc : r.id = tid
  · simp [trainFrameOk, hc, trainRow]
  · simp [trainFrameOk, hc]

/-- C9 witness: the frame theorem applied to a singleton store at its own
task id. -/
theorem complete_training_frame_witness :
    cexTask0 ∈ ([cexTask0] : TaskStore) ∧ cexTask0.id = "task_1" ∧
    (complete_task_training [cexTask0] "task_1" "[]" "done").1 = Except.ok () := by
  refine ⟨by decide, rfl, ?_⟩
  exact (complete_training_frame [cexTask0] "task_1" "[]" "done"
    ⟨cexTask0, by decide, rfl⟩).1

/-- C5: the scheduler's due query returns exactly the stored tasks whose
`due_time` is present and `<=` now (SQLite TEXT order) and whose status
is `"pending"`; tasks with another status, a later due time, or no due
time at all are excluded. -/
theorem find_due_exact (store : TaskStore) (now : String) (t : TaskRow) :
    t ∈ find_due store now ↔
      t ∈ store ∧ (∃ d, t.due_time = some d ∧ textLe d now = true) ∧
        t.status = "pending" := by
  unfold find_due
  rw [List.mem_filter]
  cases hdt : t.due_time with
  | none => simp [isDuePending, hdt]
  | some d => simp [isDuePending, hdt, and_assoc]

/-- Row-wise effect of `complete_task_training` on statuses: unchanged or
set to `"trained"`. -/
def completeStatusOk (r rNew : TaskRow) : Prop :=
  rNew.status = r.status ∨ rNew.status = "trained"

/-- Row-wise effect of a scheduler tick on statuses: unchanged or set to
`"notified"`. -/
def tickStatusOk (r rNew : TaskRow) : Prop :=
  rNew.status = r.status ∨ rNew.status = "notified"

/-- Row-wise effect of a scheduler tick on whole rows: unchanged or
marked notified. -/
def tickRowOk (r rNew : TaskRow) : Prop :=
  rNew = r ∨ rNew = notifiedRow r

theorem tick_fold_shape (sendOk : String → String → Bool) (tokens : PushTokens)
    (store : TaskStore) (l : List TaskRow) (acc : TickResult)
    (hacc : List.Forall₂ tickRowOk store acc.store) :
    List.Forall₂ tickRowOk store (l.foldl (tick_step sendOk tokens) acc).store := by
  induction l generalizing acc with
  | nil => exact hacc
  | cons x l ih =>
    simp only [List.foldl_cons]
    apply ih
    unfold tick_step
    cases hl : lookup_token tokens x.user_id with
    | none => exact hacc
    | some tok =>
      by_cases hs : sendOk tok x.title = true
      · simp only [hs, if_true]
        unfold notifyRow
        apply List.forall₂_map_right_iff.mpr
        refine List.Forall₂.imp ?_ hacc
        intro r b hrb
        by_cases hid : b.id = x.id
        · simp only [hid, if_pos]
          cases hrb with
          | inl hb => exact Or.inr (by rw [hb])
          | inr hb => exact Or.inr (by rw [hb]; simp [notifiedRow])
        · simp only [hid, if_neg, not_false_iff]
          exact hrb
      · simp only [hs, if_false, Bool.false_eq_true]
        exact hacc

/-- C2 (amended): each store operation moves row statuses in one
direction only — `create_task` only appends and leaves every existing
row unchanged, a scheduler tick leaves each status unchanged or sets it
to `"notified"`, and `complete_task_training` leaves each status
unchanged or sets it to `"trained"`; consequently no operation ever
returns a row to `"pending"`.  The transitions `pending → trained` and
`pending → notified` of the original claim are forward, but
`complete_task_training` also performs the backward move
`notified → trained` (see the counterexample). -/
theorem task_status_transitions (pyHash : String → Int) (nowLocal nowUtcIso : String)
    (req : CreateTaskRequest) (store : TaskStore) (tid plan tr now : String)
    (sendOk : String → String → Bool) (tokens : PushTokens) :
    (create_task_insert pyHash nowLocal nowUtcIso req store).take store.length = store ∧
    List.Forall₂ completeStatusOk store (complete_task_training store tid plan tr).2 ∧
    List.Forall₂ tickStatusOk store (check_reminders sendOk tokens store now).store ∧
    List.Forall₂ (fun r rNew => rNew.status = "pending" → r.status = "pending")
      store (complete_task_training store tid plan tr).2 ∧
    List.Forall₂ (fun r rNew => rNew.status = "pending" → r.status = "pending")
      store (check_reminders sendOk tokens store now).store := by
  have hc : List.Forall₂ completeStatusOk store (complete_task_training store tid plan tr).2 := by
    by_cases hany : store.any (fun t => t.id == tid) = true
    · have h2 : (complete_task_training store tid plan tr).2 =
          store.map (fun t => if t.id = tid then trainRow plan tr t else t) := by
        simp [complete_task_training, hany]
      rw [h2]
      apply List.forall₂_map_right_iff.mpr
      apply List.forall₂_same.mpr
      intro r _
      by_cases hid : r.id = tid
      · simp [completeStatusOk, hid, trainRow]
      · simp [completeStatusOk, hid]
    · have h2 : (complete_task_training store tid plan tr).2 = store := by
        simp [complete_task_training, hany]
      rw [h2]
      exact List.forall₂_same.mpr (fun r _ => Or.inl rfl)
  have ht : List.Forall₂ tickStatusOk store (check_reminders sendOk tokens store now).store := by
    have hshape := tick_fold_shape sendOk tokens store (find_due store now)
      { store := store, provider_calls := [] }
      (List.forall₂_same.mpr (fun r _ => Or.inl rfl))
    refine List.Forall₂.imp ?_ hshape
    intro r b hrb
    cases hrb with
    | inl hb => exact Or.inl (by rw [hb])
    | inr hb => exact Or.inr (by rw [hb]; rfl)
  refine ⟨List.take_left _ _, hc, ht, ?_, ?_⟩
  · refine List.Forall₂.imp ?_ hc
    intro r b hrb hp
    cases hrb with
    | inl hb => rw [← hb, hp]
    | inr hb => rw [hb] at hp; exact absurd hp (by decide)
  · refine List.Forall₂.imp ?_ ht
    intro r b hrb hp
    cases hrb with
    | inl hb => rw [← hb, hp]
    | inr hb => rw [hb] at hp; exact absurd hp (by decide)

/-- C2 counterexample: a reachable sequence of operations — a pending
task is marked `"notified"` by a scheduler tick (its owner has a token
and delivery succeeds), after which `complete_task_training` on the same
task moves it out of `"notified"` back to `"trained"`, an earlier status
in the pending-trained-notified chain. -/
theorem notified_task_reverts_to_trained :
    ((check_reminders (fun _ _ => true) [("u", "tok")] [cexTask0]
        "2025-06-01T00:00:00+00:00").store.map (fun r => r.status) = ["notified"]) ∧
    ((complete_task_training
        (check_reminders (fun _ _ => true) [("u", "tok")] [cexTask0]
          "2025-06-01T00:00:00+00:00").store
        "task_1" "[]" "done").2.map (fun r => r.status) = ["trained"]) := by
  decide

theorem tick_step_skips (sendOk : String → String → Bool) (tokens : PushTokens)
    (store : TaskStore) (t x : TaskRow)
    (hids : (store.map (fun r => r.id)).Nodup) (hmem : t ∈ store) (hx : x ∈ store)
    (htok : lookup_token tokens t.user_id = none) (acc : TickResult)
    (h1 : t ∈ acc.store) (h2 : t.id ∉ acc.provider_calls) :
    t ∈ (tick_step sendOk tokens acc x).store ∧
      t.id ∉ (tick_step sendOk tokens acc x).provider_calls := by
  unfold tick_step
  cases hl : lookup_token tokens x.user_id with
  | none => exact ⟨h1, h2⟩
  | some tok =>
    have hne : x.id ≠ t.id := by
      intro he
      have hxt : x = t := List.inj_on_of_nodup_map hids hx hmem he
      rw [hxt, htok] at hl
      exact Option.noConfusion hl
    have hcalls : t.id ∉ acc.provider_calls ++ [x.id] := by
      simp only [List.mem_append, List.mem_singleton]
      rintro (hin | heq)
      · exact h2 hin
      · exact hne heq.symm
    by_cases hs : sendOk tok x.title = true
    · simp only [hs, if_true]
      refine ⟨?_, hcalls⟩
      unfold notifyRow
      have hfix : (if t.id = x.id then notifiedRow t else t) = t := by
        rw [if_neg (fun he => hne he.symm)]
      have hmap := List.mem_map_of_mem
        (fun r => if r.id = x.id then notifiedRow r else r) h1
      simpa only [hfix] using hmap
    · simp only [hs, if_false, Bool.false_eq_true]
      exact ⟨h1, hcalls⟩

theorem tick_fold_skips (sendOk : String → String → Bool) (tokens : PushTokens)
    (store : TaskStore) (t : TaskRow)
    (hids : (store.map (fun r => r.id)).Nodup) (hmem : t ∈ store)
    (htok : lookup_token tokens t.user_id = none) (l : List TaskRow)
    (hsub : ∀ x ∈ l, x ∈ store) (acc : TickResult)
    (h1 : t ∈ acc.store) (h2 : t.id ∉ acc.provider_calls) :
    t ∈ (l.foldl (tick_step sendOk tokens) acc).store ∧
      t.id ∉ (l.foldl (tick_step sendOk tokens) acc).provider_calls := by
  induction l generalizing acc with
  | nil => exact ⟨h1, h2⟩
  | cons x l ih =>
    simp only [List.foldl_cons]
    have hx : x ∈ store := hsub x (List.mem_cons_self _ _)
    have hstep := tick_step_skips sendOk tokens store t x hids hmem hx htok acc h1 h2
    exact ih (fun y hy => hsub y (List.mem_cons_of_mem _ hy)) _ hstep.1 hstep.2

/-- C7: a due pending task whose owner has no registered push token is
silently skipped by a scheduler tick — the unchanged row (still
`"pending"`) is in the resulting store and the push provider is never
invoked for that task's id.  Task ids are assumed pairwise distinct, as
guaranteed by the `id TEXT PRIMARY KEY` column. -/
theorem no_token_task_skipped (sendOk : String → String → Bool) (tokens : PushTokens)
    (store : TaskStore) (now : String) (t : TaskRow) (d : String)
    (hids : (store.map (fun r => r.id)).Nodup) (hmem : t ∈ store)
    (hstat : t.status = "pending") (hdue : t.due_time = some d)
    (hnow : textLe d now = true)
    (htok : lookup_token tokens t.user_id = none) :
    t ∈ (check_reminders sendOk tokens store now).store ∧
    t.id ∉ (check_reminders sendOk tokens store now).provider_calls ∧
    t.status = "pending" := by
  have hfold := tick_fold_skips sendOk tokens store t hids hmem htok
    (find_due store now) (fun x hx => (List.mem_filter.mp hx).1)
    { store := store, provider_calls := [] } hmem (by simp)
  exact ⟨hfold.1, hfold.2, hstat⟩

/-- C7 witness: the singleton store holding a due pending task whose
owner has no token (the token table is empty) is untouched by a tick and
the provider is not invoked. -/
theorem no_token_task_skipped_witness :
    cexTask0 ∈ (check_reminders (fun _ _ => true) [] [cexTask0]
      "2025-06-01T00:00:00+00:00").store ∧
    "task_1" ∉ (check_reminders (fun _ _ => true) [] [cexTask0]
      "2025-06-01T00:00:00+00:00").provider_calls := by
  have h := no_token_task_skipped (fun _ _ => true) [] [cexTask0]
    "2025-06-01T00:00:00+00:00" cexTask0 "2025-01-01T00:00:00+00:00"
    (by decide) (by decide) rfl rfl (by decide) rfl
  exact ⟨h.1, h.2.1⟩

/-- C6 (amended): the browser tool never raises to its caller — a
successful body becomes the success variant, and every exception escaping
the body is caught and converted to the error variant whose message is
exactly `str(e)`; the message is therefore non-empty exactly when the
exception's text is. -/
theorem use_browser_total (env : String → PageFetchOutcome) (url : String) :
    (∀ html, browser_body env url = Except.ok html →
      use_browser_and_get_content env url = ToolResult.success html) ∧
    (∀ msg, browser_body env url = Except.error msg →
      use_browser_and_get_content env url = ToolResult.error msg) := by
  constructor <;> intro s h <;> simp [use_browser_and_get_content, h]

/-- C6 witness: an unreachable URL whose navigation raises with the usual
resolver message is converted to the error variant carrying that
message. -/
theorem use_browser_total_witness :
    use_browser_and_get_content
      (fun _ => PageFetchOutcome.raised "net::ERR_NAME_NOT_RESOLVED")
      "http://unreachable.invalid" =
      ToolResult.error "net::ERR_NAME_NOT_RESOLVED" :=
  (use_browser_total (fun _ => PageFetchOutcome.raised "net::ERR_NAME_NOT_RESOLVED")
    "http://unreachable.invalid").2 _ rfl

/-- C6 counterexample: the error message is `str(e)` verbatim, so an
exception whose string representation is empty yields the error variant
with an empty message — the claim that the message is always non-empty
fails. -/
theorem use_browser_empty_message :
    use_browser_and_get_content (fun _ => PageFetchOutcome.raised "")
      "http://unreachable.invalid" = ToolResult.error "" ∧
    (("" : String).length = 0) :=
  ⟨rfl, rfl⟩

/-- C8: when the `rrweb.js` asset is missing, the recording tool sends
exactly one error event to the sink and returns without ever opening a
browser. -/
theorem recorder_missing_script (pageEvents : List String) (url : String) :
    (start_interactive_session none pageEvents url).sink_messages =
      [rrwebMissingError] ∧
    (start_interactive_session none pageEvents url).sink_messages.length = 1 ∧
    (start_interactive_session none pageEvents url).browser_opened = false :=
  ⟨rfl, rfl, rfl⟩

/-- C10: two recording WebSocket connections behave identically whatever
their `task_id` and `user_id` path parameters are, and in particular the
session always starts at the one hard-coded URL. -/
theorem record_url_independent (rrwebScript : Option String)
    (pageEvents : List String) (t1 u1 t2 u2 : String) :
    websocket_record_session rrwebScript pageEvents t1 u1 =
      websocket_record_session rrwebScript pageEvents t2 u2 ∧
    record_start_url = "https://google.github.io/adk-docs/" :=
  ⟨rfl, rfl⟩

theorem runLoop_calls_le (planner : Nat → String → AgentAction)
    (browser : String → String) :
    ∀ n calls obs, (runLoop planner browser n calls obs).2 ≤ calls + n := by
  intro n
  induction n with
  | zero => intro calls obs; simp [runLoop]
  | succ n ih =>
    intro calls obs
    unfold runLoop
    cases planner calls obs with
    | finish reason => simp
    | fetch url =>
      have h := ih (calls + 1) (browser url)
      simp only
      omega

theorem runLoop_never_finish (planner : Nat → String → AgentAction)
    (browser : String → String)
    (hp : ∀ i obs, ∃ u, planner i obs = AgentAction.fetch u) :
    ∀ n calls obs, runLoop planner browser n calls obs =
      (LoopOutcome.capReached (loopObs planner browser n calls obs), calls + n) := by
  intro n
  induction n with
  | zero => intro calls obs; simp [runLoop, loopObs]
  | succ n ih =>
    intro calls obs
    obtain ⟨u, hu⟩ := hp calls obs
    unfold runLoop loopObs stepObs
    rw [hu]
    simp only
    rw [ih (calls + 1) (browser u)]
    have harith : calls + 1 + n = calls + (n + 1) := by omega
    rw [harith]

/-- C1: for every planner behaviour and browser behaviour, one invocation
of the bounded agentic loop makes at most 5 planner calls; and when the
planner never returns a `Finish` action, the loop terminates after
exactly 5 iterations with the `capReached` outcome reporting the last
observation — not an error (`LoopOutcome` has no error variant; reaching
the cap is normal termination). -/
theorem thinker_loop_bounded (planner : String → Nat → String → AgentAction)
    (browser : String → String) (goal : String) :
    (thinker_agent planner browser goal).2 ≤ 5 ∧
    ((∀ i obs, ∃ u, planner goal i obs = AgentAction.fetch u) →
      thinker_agent planner browser goal =
        (LoopOutcome.capReached (loopLastObs planner browser goal), 5)) := by
  constructor
  · have h := runLoop_calls_le (planner goal) browser max_iterations 0 ""
    simpa [thinker_agent, max_iterations] using h
  · intro hp
    have h := runLoop_never_finish (planner goal) browser hp max_iterations 0 ""
    simpa [thinker_agent, loopLastObs, max_iterations] using h

/-- A planner that always decides to fetch the same page. -/
def wPlanner : String → Nat → String → AgentAction :=
  fun _ _ _ => AgentAction.fetch "https://example.com"

/-- A browser environment that always returns the same observation. -/
def wBrowser : String → String := fun _ => "page content"

/-- C1 witness: under a planner that never finishes, the loop stops after
exactly 5 planner calls and reports the last observation. -/
theorem thinker_loop_bounded_witness :
    thinker_agent wPlanner wBrowser "goal" =
      (LoopOutcome.capReached "page content", 5) := by
  have h := (thinker_loop_bounded wPlanner wBrowser "goal").2
    (fun i obs => ⟨"https://example.com", rfl⟩)
  rw [h]
  decide

end Remo
